import Mathlib

/-!
Verification of the generation-ahead buffering and scheduling core of the
realtime-poetry repository, as a shallow embedding in Lean 4.

The embedding follows the JavaScript sources:
* `src/modules/audioBuffer.js` — class `AudioBufferManager` (queue, consumer
  loop, activation, volume);
* `src/modules/poetry.js` — class `PoetryModule` (rolling `previousLines`
  history, `addToHistory`);
* `src/main.js` — class `Mil4dy` (session lifecycle `start`/`stop`, the
  single-flight pipeline `generateClip`).

Machine floats (clip durations, volume levels) are modelled as `Rat`;
asynchronous external collaborators (camera, vision, composition, TTS,
audio decode) are modelled by their outcomes, supplied as explicit inputs.
JavaScript exceptions are modelled with `Except`; methods of the source
that contain no `throw` on any path are modelled as total functions.
-/

/-- A produced audio clip, as enqueued by `tts.synthesize` →
`audioBuffer.addToQueue`: its spoken text and its duration in seconds.
The opaque audio payload (blob / decoded `AudioBuffer`) carries no
information the verified properties depend on and is omitted. -/
structure Clip where
  text : String
  duration : Rat
deriving DecidableEq

/-- The timing configuration of `src/utils/config.js` (`config.timing`),
restricted to the fields the buffering core reads. -/
structure Config where
  minBufferClips : Nat
  maxBufferClips : Nat
deriving DecidableEq

/-- The concrete values of `config.timing` in `src/utils/config.js`:
`minBufferClips: 2`, `maxBufferClips: 5`. -/
def appConfig : Config := ⟨2, 5⟩

/-- The `maxPreviousLines` bound of `PoetryModule` in `src/modules/poetry.js`
(`this.maxPreviousLines = 12`). -/
def maxPreviousLines : Nat := 12

/-- Errors `addToQueue` can throw: the explicit
`Error('Audio buffer not initialized…')` guard, and a failure of
`blob.arrayBuffer()` / `decodeAudioData` (re-thrown after logging). -/
inductive BufErr where
  | notActivated
  | decodeError
deriving DecidableEq

/-- Externally observable callback events of `AudioBufferManager`:
`onClipStart`, `onClipEnd`, `onBufferUpdate` (carrying the `queuedClips`
and `totalBufferedSeconds` fields of the status snapshot), `onBufferLow`,
and `onError` (playback start failure). -/
inductive Ev where
  | clipStart (c : Clip)
  | clipEnd (c : Clip)
  | bufferUpdate (queuedClips : Nat) (totalBufferedSeconds : Rat)
  | bufferLow
  | errEvent
deriving DecidableEq

deriving instance DecidableEq for Except

/-- Mutable state of the `AudioBufferManager` singleton
(`src/modules/audioBuffer.js`, constructor): the clip queue,
`currentlyPlaying`, the `isPlaying` / `isPaused` / `isInitialized` flags,
and the gain node's value (`none` before `initialize()` creates it). -/
structure BufferState where
  queue : List Clip
  currentlyPlaying : Option Clip
  isPlaying : Bool
  isPaused : Bool
  isInitialized : Bool
  gain : Option Rat
deriving DecidableEq

/-- The buffer state as constructed (`new AudioBufferManager()`). -/
def BufferState.fresh : BufferState :=
  ⟨[], none, false, false, false, none⟩

/-- The body of `queue.reduce((total, clip) => total + clip.duration, 0)` —
`getTotalBufferedSeconds`, on a plain list. -/
def totalSeconds (q : List Clip) : Rat :=
  q.foldl (fun t c => t + c.duration) 0

/-- The trimming loop of `addToQueue`:
`while (this.queue.length > config.timing.maxBufferClips) this.queue.shift()`.
Each iteration removes the head (oldest) element. -/
def trimQueue (maxClips : Nat) : List Clip → List Clip
  | [] => []
  | c :: rest =>
    if (c :: rest).length > maxClips then trimQueue maxClips rest
    else c :: rest

/-- Model of `AudioBufferManager.initialize()`: idempotent; creates the audio
context and the gain node (default gain 1) and sets `isInitialized`.
(Named `initBuffer` here.) -/
def AudioBufferManager.initBuffer (b : BufferState) : BufferState :=
  if b.isInitialized then b
  else { b with isInitialized := true, gain := some 1 }

/-- Model of `AudioBufferManager.addToQueue(clip)` (audioBuffer.js lines 75–109).
Throws `notActivated` when `isInitialized` is false; `decodeOk` is the
outcome of the awaited `arrayBuffer`/`decodeAudioData` calls, whose failure
is re-thrown and leaves the queue unchanged. On success the clip is pushed
to the tail, `notifyBufferUpdate()` fires (note: with the still-untrimmed
queue), and then the trimming loop drops oldest clips while the length
exceeds `maxBufferClips`. Returns the new state and the emitted events. -/
def AudioBufferManager.addToQueue (cfg : Config) (b : BufferState) (c : Clip)
    (decodeOk : Bool) : Except BufErr (BufferState × List Ev) :=
  if !b.isInitialized then .error .notActivated
  else if !decodeOk then .error .decodeError
  else
    let q1 := b.queue ++ [c]
    let evs := [Ev.bufferUpdate q1.length (totalSeconds q1)]
    .ok ({ b with queue := trimQueue cfg.maxBufferClips q1 }, evs)

/-- Model of `AudioBufferManager.play()`: self-initializes when not yet initialized,
returns early when already playing and not paused, else sets
`isPlaying := true, isPaused := false`. (The `playNext()` consumer-loop
call it then makes is modelled separately by `playTrace` /
`AudioBufferManager.dequeueStep`.) The method has no `throw` on any path,
so it is a total state transformer. -/
def AudioBufferManager.play (b : BufferState) : BufferState :=
  let b := AudioBufferManager.initBuffer b
  if b.isPlaying && !b.isPaused then b
  else { b with isPlaying := true, isPaused := false }

/-- Model of `AudioBufferManager.pause()`: no-op unless playing; sets `isPaused`,
stops and drops the current source (exceptions from `source.stop()` are
swallowed by the source's own try/catch). `currentlyPlaying` is not
cleared by `pause`. Total: no `throw` escapes. -/
def AudioBufferManager.pause (b : BufferState) : BufferState :=
  if !b.isPlaying then b
  else { b with isPaused := true }

/-- Model of `AudioBufferManager.resume()`: no-op unless paused; clears `isPaused`
(then re-enters the consumer loop). Total: no `throw` on any path. -/
def AudioBufferManager.resume (b : BufferState) : BufferState :=
  if !b.isPaused then b
  else { b with isPaused := false }

/-- Model of `AudioBufferManager.stop()`: clears the playing flags, the current
source and `currentlyPlaying`; the queue is retained. Total: no `throw`
escapes. -/
def AudioBufferManager.stop (b : BufferState) : BufferState :=
  { b with isPlaying := false, isPaused := false, currentlyPlaying := none }

/-- Model of `AudioBufferManager.setVolume(level)`: when the gain node exists,
clamps the level to [0,1] and assigns it; before `initialize()` the gain
node is `null` and the call is a silent no-op. Total: no `throw`. -/
def AudioBufferManager.setVolume (b : BufferState) (level : Rat) : BufferState :=
  match b.gain with
  | none => b
  | some _ => { b with gain := some (max 0 (min 1 level)) }

/-- Model of `getTotalBufferedSeconds()` (audioBuffer.js lines 278–280): sums the
durations of the clips still in the queue. -/
def AudioBufferManager.getTotalBufferedSeconds (b : BufferState) : Rat :=
  totalSeconds b.queue

/-- The `getStatus()` snapshot (audioBuffer.js lines 286–297). -/
structure BufferStatus where
  queuedClips : Nat
  totalBufferedSeconds : Rat
  isPlaying : Bool
  isPaused : Bool
  currentlyPlaying : Option (String × Rat)
deriving DecidableEq

/-- Model of `AudioBufferManager.getStatus()`: `queuedClips` is `queue.length`,
`totalBufferedSeconds` sums the queue, `currentlyPlaying` projects the
current clip's text and duration when one is set. -/
def AudioBufferManager.getStatus (b : BufferState) : BufferStatus :=
  ⟨b.queue.length, AudioBufferManager.getTotalBufferedSeconds b,
   b.isPlaying, b.isPaused,
   b.currentlyPlaying.map (fun c => (c.text, c.duration))⟩

/-- The dequeue step of `playNext()` (audioBuffer.js lines 158–160):
`const clip = this.queue.shift(); this.currentlyPlaying = clip;`.
When the queue is empty `playNext` instead schedules a re-check and the
state is unchanged. -/
def AudioBufferManager.dequeueStep (b : BufferState) : BufferState :=
  match b.queue with
  | [] => b
  | c :: rest => { b with queue := rest, currentlyPlaying := some c }

/-- The event trace of the `playNext()` consumer loop over the queue
contents, each clip paired with the outcome of `source.start(0)` for it.
Per iteration (audioBuffer.js lines 141–196), in source order: the
low-buffer check against the queue length at entry, then the dequeue,
`onClipStart`, `notifyBufferUpdate`, and either natural completion
(`onended` → `onClipEnd`, then the next iteration) or a start failure
(`onError`, no `clipEnd`, then immediately the next iteration). -/
def playTrace (minClips : Nat) : List (Clip × Bool) → List Ev
  | [] => []
  | (c, ok) :: rest =>
    (if rest.length + 1 ≤ minClips then [Ev.bufferLow] else []) ++
    Ev.clipStart c ::
    Ev.bufferUpdate rest.length (totalSeconds (rest.map Prod.fst)) ::
    (if ok then Ev.clipEnd c :: playTrace minClips rest
     else Ev.errEvent :: playTrace minClips rest)

/-- Sequential `addToQueue` calls (decode succeeding), propagating the
first error, discarding events. Used to state queue-shape scenarios. -/
def AudioBufferManager.enqueueSeq (cfg : Config) (b : BufferState) :
    List Clip → Except BufErr BufferState
  | [] => .ok b
  | c :: cs =>
    match AudioBufferManager.addToQueue cfg b c true with
    | .error e => .error e
    | .ok (b', _) => AudioBufferManager.enqueueSeq cfg b' cs

/-- Splitting a character list at newline characters, accumulating the
current line in reverse — the semantics of JavaScript
`text.split('\n')` for a one-character separator (kernel-computable,
unlike `String.splitOn`). -/
def splitNlAux : List Char → List Char → List (List Char)
  | [], acc => [acc.reverse]
  | ch :: cs, acc =>
    if ch = '\n' then acc.reverse :: splitNlAux cs []
    else splitNlAux cs (ch :: acc)

/-- Model of `text.split('\n')` on a `String`. -/
def splitNl (s : String) : List String :=
  (splitNlAux s.data []).map String.mk

/-- Whether a line consists of whitespace only. JavaScript
`line.trim()` is falsy exactly for such lines, so the source's
`filter(line => line.trim())` keeps a line iff `isBlankLine` is false. -/
def isBlankLine (l : String) : Bool :=
  l.data.all (fun ch => ch.isWhitespace)

/-- Model of `PoetryModule.addToHistory(poetry)` (poetry.js lines 137–145): splits
the generated text into lines, keeps the non-blank ones
(`filter(line => line.trim())`), pushes them onto `previousLines`, then
keeps only the last `maxPreviousLines` entries (`slice(-maxPreviousLines)`)
when the bound is exceeded. -/
def PoetryModule.addToHistory (maxPrev : Nat) (hist : List String)
    (poemText : String) : List String :=
  let lines := (splitNl poemText).filter (fun l => !(isBlankLine l))
  let h := hist ++ lines
  if h.length > maxPrev then h.drop (h.length - maxPrev) else h

/-- Outcomes of the external collaborators awaited during one
`generateClip` run: `camera.captureFrame`, `vision.analyzeFrame`, the
chat-completion call inside `poetry.generate` (whose success carries the
composed poem text), `tts.synthesize` (whose success carries the audio
duration), and the decode inside `audioBuffer.addToQueue`. -/
structure RunOutcome where
  captureOk : Bool
  describeOk : Bool
  composeOk : Bool
  poemText : String
  synthOk : Bool
  duration : Rat
  decodeOk : Bool
deriving DecidableEq

/-- The external-collaborator calls a `generateClip` invocation actually
performs, in order. An invocation refused by the single-flight guard
performs none. -/
inductive ExtCall where
  | capture
  | describe
  | compose
  | synthesize
  | enqueue
deriving DecidableEq

/-- Combined mutable state of the `Mil4dy` app object (`src/main.js`):
its `isRunning` / `isGenerating` flags and `stats` counters, the
`PoetryModule` singleton's `previousLines` history, and the
`AudioBufferManager` singleton's state. -/
structure AppState where
  isRunning : Bool
  isGenerating : Bool
  errors : Nat
  clipsGenerated : Nat
  previousLines : List String
  buffer : BufferState
deriving DecidableEq

/-- The app state as constructed (`new Mil4dy()` plus the fresh module
singletons): idle, no history, fresh buffer. -/
def AppState.initial : AppState :=
  ⟨false, false, 0, 0, [], BufferState.fresh⟩

/-- The `catch` branch of `generateClip` followed by its `finally`:
`stats.errors++`, then `isGenerating = false`. The error is swallowed —
nothing propagates to the caller. -/
def Mil4dy.runFail (s : AppState) : AppState :=
  { s with errors := s.errors + 1, isGenerating := false }

/-- Step 5 of `generateClip` (main.js line 224 onward): the segment of a
fully successful pipeline run is handed to `audioBuffer.addToQueue`
unconditionally — the code consults neither `isRunning` nor any other
session flag here. A thrown `addToQueue` error lands in the run's `catch`;
on success the stats update and the `finally` reset run. -/
def Mil4dy.enqueuePhase (cfg : Config) (s : AppState) (c : Clip)
    (decodeOk : Bool) : AppState :=
  match AudioBufferManager.addToQueue cfg s.buffer c decodeOk with
  | .error _ => Mil4dy.runFail s
  | .ok (b, _) =>
    { s with buffer := b, clipsGenerated := s.clipsGenerated + 1,
             isGenerating := false }

/-- Model of `Mil4dy.generateClip()` (main.js lines 195–248), one invocation given
the outcomes of its awaited external calls. If `isGenerating` is already
set, returns immediately (state unchanged, no external call made).
Otherwise sets `isGenerating`, then runs capture → describe → compose →
synthesize → enqueue, aborting to `runFail` at the first failing stage.
`poetry.generate` appends the composed text to `previousLines`
(`addToHistory`) before returning — i.e. before synthesis is attempted.
Returns the state and the list of external calls performed. -/
def Mil4dy.generateClip (cfg : Config) (s : AppState) (o : RunOutcome) :
    AppState × List ExtCall :=
  if s.isGenerating then (s, [])
  else
    let s1 := { s with isGenerating := true }
    if !o.captureOk then (Mil4dy.runFail s1, [.capture])
    else if !o.describeOk then (Mil4dy.runFail s1, [.capture, .describe])
    else if !o.composeOk then
      (Mil4dy.runFail s1, [.capture, .describe, .compose])
    else
      let s2 := { s1 with previousLines :=
        PoetryModule.addToHistory maxPreviousLines s1.previousLines o.poemText }
      if !o.synthOk then
        (Mil4dy.runFail s2, [.capture, .describe, .compose, .synthesize])
      else
        (Mil4dy.enqueuePhase cfg s2 ⟨o.poemText, o.duration⟩ o.decodeOk,
         [.capture, .describe, .compose, .synthesize, .enqueue])

/-- Model of `Mil4dy.start()` (main.js lines 108–137): sets `isRunning`, awaits
`audioBuffer.initialize()`, awaits `generateClip()` exactly twice (the
priming phase — two attempts, whatever their outcomes), then calls
`audioBuffer.play()` and starts the periodic generation loop. The two
priming outcomes are the run parameters. -/
def Mil4dy.start (cfg : Config) (s : AppState) (o1 o2 : RunOutcome) :
    AppState :=
  let s := { s with isRunning := true }
  let s := { s with buffer := AudioBufferManager.initBuffer s.buffer }
  let s := (Mil4dy.generateClip cfg s o1).1
  let s := (Mil4dy.generateClip cfg s o2).1
  { s with buffer := AudioBufferManager.play s.buffer }

/-- Model of `Mil4dy.stop()` (main.js lines 142–156): clears `isRunning`, cancels
the generation interval, and pauses the audio buffer. The queue and the
poetry history are untouched. -/
def Mil4dy.stopSession (s : AppState) : AppState :=
  { s with isRunning := false,
           buffer := AudioBufferManager.pause s.buffer }

/-! ### Helper lemmas -/

/-- The trimming loop always leaves at most `maxClips` clips. -/
theorem trimQueue_length_le (maxClips : Nat) (q : List Clip) :
    (trimQueue maxClips q).length ≤ maxClips := by
  induction q with
  | nil => simp [trimQueue]
  | cons c rest ih =>
    unfold trimQueue
    split
    · exact ih
    · omega

/-- The trimming loop drops exactly the oldest elements: its result is the
suffix of the input obtained by dropping `length - maxClips` heads. -/
theorem trimQueue_eq_drop (maxClips : Nat) (q : List Clip) :
    trimQueue maxClips q = q.drop (q.length - maxClips) := by
  induction q with
  | nil => simp [trimQueue]
  | cons c rest ih =>
    unfold trimQueue
    split
    · rename_i h
      simp only [List.length_cons] at h
      have hdrop : rest.length + 1 - maxClips = (rest.length - maxClips) + 1 := by
        omega
      rw [ih, List.length_cons, hdrop, List.drop_succ_cons]
    · rename_i h
      simp only [List.length_cons] at h
      have : rest.length + 1 - maxClips = 0 := by omega
      rw [List.length_cons, this, List.drop_zero]

/-- Trimming never adds elements. -/
theorem trimQueue_length_le_self (maxClips : Nat) (q : List Clip) :
    (trimQueue maxClips q).length ≤ q.length := by
  rw [trimQueue_eq_drop]
  simp

/-- Shifting the fold accumulator of `totalSeconds` out. -/
theorem foldl_duration_acc (q : List Clip) :
    ∀ a : Rat, q.foldl (fun t c => t + c.duration) a = a + totalSeconds q := by
  induction q with
  | nil => intro a; simp [totalSeconds]
  | cons c rest ih =>
    intro a
    simp only [totalSeconds, List.foldl_cons] at *
    rw [ih (a + c.duration), ih (0 + c.duration)]
    ring

/-- Unfolding `totalSeconds` on a cons cell. -/
theorem totalSeconds_cons (c : Clip) (q : List Clip) :
    totalSeconds (c :: q) = c.duration + totalSeconds q := by
  simp only [totalSeconds, List.foldl_cons]
  rw [foldl_duration_acc]
  simp only [totalSeconds]
  ring

/-! ### Concrete fixtures used by witnesses and counterexamples -/

/-- A concrete clip. -/
def clipA : Clip := ⟨"alpha", 3⟩

/-- A second concrete clip. -/
def clipB : Clip := ⟨"beta", 2⟩

/-- An activated buffer with an empty queue (the state right after
`initialize()` on a fresh manager). -/
def activatedEmptyBuffer : BufferState := ⟨[], none, false, false, true, some 1⟩

/-- A running session with no generation in flight. -/
def runningState : AppState := ⟨true, false, 0, 0, [], activatedEmptyBuffer⟩

/-- A running session with a generation already in flight
(`isGenerating = true`). -/
def busyState : AppState := ⟨true, true, 0, 0, [], activatedEmptyBuffer⟩

/-- An idle session carrying history from a previous session. -/
def histState : AppState := ⟨false, false, 0, 0, ["old line"], activatedEmptyBuffer⟩

/-- A session state mid-run: the single-flight guard is held
(`isGenerating = true`) and the pipeline stages up to synthesis have
completed. -/
def midFlightState : AppState := ⟨true, true, 0, 0, [], activatedEmptyBuffer⟩

/-- A run whose synthesis stage fails after composition succeeded. -/
def synthFailOutcome : RunOutcome := ⟨true, true, true, "line one\nline two", false, 5, true⟩

/-- A fully successful run. -/
def okOutcome : RunOutcome := ⟨true, true, true, "good line", true, 4, true⟩

/-- A run failing at the capture stage. -/
def capFailOutcome : RunOutcome := ⟨false, true, true, "x", true, 1, true⟩

/-! ### C1 — queue bound and drop-from-head -/

/-- C1: after every `addToQueue` call the queue holds at most
`maxBufferClips` clips, excess being dropped from the head (oldest
first); and with `minBufferClips = 1, maxBufferClips = 2`, enqueuing
S1, S2, S3 in order with no dequeue leaves the queue `[S2, S3]`. -/
theorem addToQueue_bounded_dropOldest (cfg : Config) (b : BufferState)
    (c : Clip) (h : b.isInitialized = true) :
    (∃ b' evs, AudioBufferManager.addToQueue cfg b c true = .ok (b', evs) ∧
       b'.queue.length ≤ cfg.maxBufferClips ∧
       b'.queue = (b.queue ++ [c]).drop
         ((b.queue ++ [c]).length - cfg.maxBufferClips)) ∧
    (∀ s1 s2 s3 : Clip,
       ∃ b', AudioBufferManager.enqueueSeq ⟨1, 2⟩ activatedEmptyBuffer
           [s1, s2, s3] = .ok b' ∧ b'.queue = [s2, s3]) := by
  constructor
  · refine ⟨{ b with queue := trimQueue cfg.maxBufferClips (b.queue ++ [c]) },
      [Ev.bufferUpdate (b.queue ++ [c]).length (totalSeconds (b.queue ++ [c]))],
      ?_, ?_, ?_⟩
    · simp [AudioBufferManager.addToQueue, h]
    · exact trimQueue_length_le cfg.maxBufferClips (b.queue ++ [c])
    · exact trimQueue_eq_drop cfg.maxBufferClips (b.queue ++ [c])
  · intro s1 s2 s3
    refine ⟨_, rfl, ?_⟩
    simp [AudioBufferManager.enqueueSeq, AudioBufferManager.addToQueue,
          activatedEmptyBuffer, trimQueue]

/-- Witness for C1 at a concrete input. -/
theorem addToQueue_bounded_dropOldest_witness :
    activatedEmptyBuffer.isInitialized = true ∧
    ((∃ b' evs, AudioBufferManager.addToQueue appConfig activatedEmptyBuffer
          clipA true = .ok (b', evs) ∧
        b'.queue.length ≤ appConfig.maxBufferClips ∧
        b'.queue = (activatedEmptyBuffer.queue ++ [clipA]).drop
          ((activatedEmptyBuffer.queue ++ [clipA]).length -
            appConfig.maxBufferClips)) ∧
     (∀ s1 s2 s3 : Clip,
        ∃ b', AudioBufferManager.enqueueSeq ⟨1, 2⟩ activatedEmptyBuffer
            [s1, s2, s3] = .ok b' ∧ b'.queue = [s2, s3])) :=
  ⟨rfl, addToQueue_bounded_dropOldest appConfig activatedEmptyBuffer clipA rfl⟩

/-! ### C2 — single-flight admission control -/

/-- C2: invoking `generateClip` while a run is already in progress
(`isGenerating = true`) returns immediately as a no-op: the state is
unchanged and no external collaborator is called, regardless of which
trigger (timer tick, low-buffer signal, explicit call) performed the
invocation — they all funnel into this guard. -/
theorem generateClip_singleFlight (cfg : Config) (s : AppState)
    (o : RunOutcome) (h : s.isGenerating = true) :
    Mil4dy.generateClip cfg s o = (s, []) := by
  simp [Mil4dy.generateClip, h]

/-- Witness for C2 at a concrete input. -/
theorem generateClip_singleFlight_witness :
    busyState.isGenerating = true ∧
    Mil4dy.generateClip appConfig busyState okOutcome = (busyState, []) :=
  ⟨rfl, generateClip_singleFlight appConfig busyState okOutcome rfl⟩

/-! ### C10 — status counts only waiting clips -/

/-- C10: after the `playNext` dequeue step, the `getStatus` snapshot
counts only clips still waiting: the clip just removed and marked
`currentlyPlaying` is excluded from `queuedClips` and from
`totalBufferedSeconds` (its duration is exactly the difference from the
pre-dequeue sum). -/
theorem getStatus_excludes_currentlyPlaying (b : BufferState) (c : Clip)
    (rest : List Clip) (h : b.queue = c :: rest) :
    (AudioBufferManager.getStatus (AudioBufferManager.dequeueStep b)).queuedClips
        = rest.length ∧
    (AudioBufferManager.getStatus
        (AudioBufferManager.dequeueStep b)).totalBufferedSeconds
        = totalSeconds rest ∧
    (AudioBufferManager.dequeueStep b).currentlyPlaying = some c ∧
    AudioBufferManager.getTotalBufferedSeconds b
        = c.duration + totalSeconds rest := by
  refine ⟨?_, ?_, ?_, ?_⟩ <;>
    simp [AudioBufferManager.dequeueStep, h, AudioBufferManager.getStatus,
          AudioBufferManager.getTotalBufferedSeconds, totalSeconds_cons]

/-- Witness for C10 at a concrete input. -/
theorem getStatus_excludes_currentlyPlaying_witness :
    ({ activatedEmptyBuffer with queue := [clipA, clipB] } : BufferState).queue
        = clipA :: [clipB] ∧
    ((AudioBufferManager.getStatus (AudioBufferManager.dequeueStep
          { activatedEmptyBuffer with queue := [clipA, clipB] })).queuedClips
        = [clipB].length ∧
     (AudioBufferManager.getStatus (AudioBufferManager.dequeueStep
          { activatedEmptyBuffer with queue := [clipA, clipB] })).totalBufferedSeconds
        = totalSeconds [clipB] ∧
     (AudioBufferManager.dequeueStep
          { activatedEmptyBuffer with queue := [clipA, clipB] }).currentlyPlaying
        = some clipA ∧
     AudioBufferManager.getTotalBufferedSeconds
          { activatedEmptyBuffer with queue := [clipA, clipB] }
        = clipA.duration + totalSeconds [clipB]) :=
  ⟨rfl, getStatus_excludes_currentlyPlaying
    { activatedEmptyBuffer with queue := [clipA, clipB] } clipA [clipB] rfl⟩

/-! ### C5 — behavior of operations before activation -/

/-- C5 counterexample: before `initialize()` only `addToQueue` throws the
not-initialized error. `play()` does not fail — it initializes the
context itself and starts playback; `pause`, `resume`, `stop` and
`setVolume` contain no activation check and no reachable `throw`: on the
fresh (never activated) manager state they all return normally. -/
theorem preActivation_counterexample :
    AudioBufferManager.addToQueue appConfig BufferState.fresh clipA true
        = .error .notActivated ∧
    (AudioBufferManager.play BufferState.fresh).isInitialized = true ∧
    (AudioBufferManager.play BufferState.fresh).isPlaying = true ∧
    AudioBufferManager.pause BufferState.fresh = BufferState.fresh ∧
    AudioBufferManager.resume BufferState.fresh = BufferState.fresh ∧
    AudioBufferManager.stop BufferState.fresh = BufferState.fresh ∧
    AudioBufferManager.setVolume BufferState.fresh (1 / 2)
        = BufferState.fresh :=
  ⟨rfl, rfl, rfl, rfl, rfl, rfl, rfl⟩

/-- C5 amended: before activation, `addToQueue` (alone) fails with the
not-initialized error; `play` self-initializes and enters the playing
state instead of failing; `setVolume` is a silent no-op while the gain
node is absent; `pause`, `resume` and `stop` never consult the
activation flag and leave the queue untouched. -/
theorem preActivation_behavior (cfg : Config) (b : BufferState) (c : Clip)
    (level : Rat) (h : b.isInitialized = false) (hg : b.gain = none) :
    AudioBufferManager.addToQueue cfg b c true = .error .notActivated ∧
    (AudioBufferManager.play b).isInitialized = true ∧
    (AudioBufferManager.play b).isPlaying = true ∧
    AudioBufferManager.setVolume b level = b ∧
    (AudioBufferManager.pause b).queue = b.queue ∧
    (AudioBufferManager.resume b).queue = b.queue ∧
    (AudioBufferManager.stop b).queue = b.queue := by
  refine ⟨?_, ?_, ?_, ?_, ?_, ?_, ?_⟩
  · simp [AudioBufferManager.addToQueue, h]
  · simp only [AudioBufferManager.play, AudioBufferManager.initBuffer, h]
    split <;> simp_all
  · simp only [AudioBufferManager.play, AudioBufferManager.initBuffer, h]
    split <;> simp_all
  · simp [AudioBufferManager.setVolume, hg]
  · simp only [AudioBufferManager.pause]
    split <;> rfl
  · simp only [AudioBufferManager.resume]
    split <;> rfl
  · rfl

/-- Witness for C5 amended at a concrete input. -/
theorem preActivation_behavior_witness :
    BufferState.fresh.isInitialized = false ∧
    BufferState.fresh.gain = none ∧
    (AudioBufferManager.addToQueue appConfig BufferState.fresh clipB true
        = .error .notActivated ∧
     (AudioBufferManager.play BufferState.fresh).isInitialized = true ∧
     (AudioBufferManager.play BufferState.fresh).isPlaying = true ∧
     AudioBufferManager.setVolume BufferState.fresh (3 / 4)
        = BufferState.fresh ∧
     (AudioBufferManager.pause BufferState.fresh).queue
        = BufferState.fresh.queue ∧
     (AudioBufferManager.resume BufferState.fresh).queue
        = BufferState.fresh.queue ∧
     (AudioBufferManager.stop BufferState.fresh).queue
        = BufferState.fresh.queue) :=
  ⟨rfl, rfl,
   preActivation_behavior appConfig BufferState.fresh clipB (3 / 4) rfl rfl⟩

/-! ### C6 — result of an in-flight run after stop -/

/-- C6 counterexample: a pipeline run is in flight (`isGenerating` held,
stages through synthesis complete) when `stop()` ends the session; when
the run resumes, its enqueue step still appends the produced segment to
the playback queue — `generateClip` consults no session flag before
calling `addToQueue`, so the segment is not discarded. -/
theorem stopped_run_still_enqueues_counterexample :
    (Mil4dy.stopSession midFlightState).isRunning = false ∧
    (Mil4dy.enqueuePhase appConfig (Mil4dy.stopSession midFlightState)
        clipA true).buffer.queue = [clipA] := by
  decide

/-- C6 amended: the enqueue step of a successful run appends the segment
(then trims) unconditionally — in particular even when the session is no
longer Running, the fully produced segment is enqueued rather than
discarded (the queue is retained for a later `start`). -/
theorem enqueuePhase_ignores_isRunning (cfg : Config) (s : AppState)
    (c : Clip) (h : s.buffer.isInitialized = true)
    (hr : s.isRunning = false) :
    (Mil4dy.enqueuePhase cfg s c true).buffer.queue
        = trimQueue cfg.maxBufferClips (s.buffer.queue ++ [c]) ∧
    (Mil4dy.enqueuePhase cfg s c true).clipsGenerated
        = s.clipsGenerated + 1 ∧
    (Mil4dy.enqueuePhase cfg s c true).isRunning = false := by
  refine ⟨?_, ?_, ?_⟩ <;>
    simp [Mil4dy.enqueuePhase, AudioBufferManager.addToQueue, h, hr]

/-- Witness for C6 amended at a concrete input. -/
theorem enqueuePhase_ignores_isRunning_witness :
    (Mil4dy.stopSession midFlightState).buffer.isInitialized = true ∧
    (Mil4dy.stopSession midFlightState).isRunning = false ∧
    ((Mil4dy.enqueuePhase appConfig (Mil4dy.stopSession midFlightState)
         clipA true).buffer.queue
       = trimQueue appConfig.maxBufferClips
           ((Mil4dy.stopSession midFlightState).buffer.queue ++ [clipA]) ∧
     (Mil4dy.enqueuePhase appConfig (Mil4dy.stopSession midFlightState)
         clipA true).clipsGenerated
       = (Mil4dy.stopSession midFlightState).clipsGenerated + 1 ∧
     (Mil4dy.enqueuePhase appConfig (Mil4dy.stopSession midFlightState)
         clipA true).isRunning = false) :=
  ⟨rfl, rfl,
   enqueuePhase_ignores_isRunning appConfig
     (Mil4dy.stopSession midFlightState) clipA rfl rfl⟩

/-! ### C3 — what an aborted run leaves behind -/

/-- C3 counterexample: a run that aborts with a synthesis failure does
NOT leave the composer history as it was. `poetry.generate` calls
`addToHistory` before returning — i.e. before `tts.synthesize` is ever
attempted — so when synthesis then fails, the composed lines remain in
`previousLines`. Here the history grows from `[]` to the two composed
lines although the run aborted. -/
theorem synthFail_mutates_history_counterexample :
    (Mil4dy.generateClip appConfig runningState synthFailOutcome).1.previousLines
        = ["line one", "line two"] ∧
    (Mil4dy.generateClip appConfig runningState synthFailOutcome).1.previousLines
        ≠ runningState.previousLines ∧
    (Mil4dy.generateClip appConfig runningState synthFailOutcome).1.errors
        = runningState.errors + 1 := by
  decide

/-- C3 amended: every aborted run leaves the playback queue untouched,
increments the session error counter by exactly one, releases the
single-flight guard, and propagates nothing (the embedding of
`generateClip` is a total function — the `catch` swallows every stage
error). The composer history is untouched when the abort happens at
capture, describe or compose; when the abort happens at synthesize, the
already-composed lines remain appended to the history. -/
theorem generateClip_abort_effects (cfg : Config) (s : AppState)
    (o : RunOutcome) (h : s.isGenerating = false) :
    ((o.captureOk = false ∨ o.describeOk = false ∨ o.composeOk = false) →
       ((Mil4dy.generateClip cfg s o).1.previousLines = s.previousLines ∧
        (Mil4dy.generateClip cfg s o).1.buffer.queue = s.buffer.queue ∧
        (Mil4dy.generateClip cfg s o).1.errors = s.errors + 1 ∧
        (Mil4dy.generateClip cfg s o).1.isGenerating = false)) ∧
    (o.captureOk = true → o.describeOk = true → o.composeOk = true →
     o.synthOk = false →
       ((Mil4dy.generateClip cfg s o).1.buffer.queue = s.buffer.queue ∧
        (Mil4dy.generateClip cfg s o).1.errors = s.errors + 1 ∧
        (Mil4dy.generateClip cfg s o).1.isGenerating = false ∧
        (Mil4dy.generateClip cfg s o).1.previousLines
          = PoetryModule.addToHistory maxPreviousLines s.previousLines
              o.poemText)) := by
  constructor
  · intro habort
    cases hc : o.captureOk <;> cases hd : o.describeOk <;>
      cases hcm : o.composeOk <;>
      simp_all [Mil4dy.generateClip, Mil4dy.runFail]
  · intro h1 h2 h3 h4
    simp [Mil4dy.generateClip, Mil4dy.runFail, h, h1, h2, h3, h4]

/-- Witness for C3 amended at a concrete input. -/
theorem generateClip_abort_effects_witness :
    runningState.isGenerating = false ∧
    (((capFailOutcome.captureOk = false ∨ capFailOutcome.describeOk = false ∨
       capFailOutcome.composeOk = false) →
        ((Mil4dy.generateClip appConfig runningState capFailOutcome).1.previousLines
            = runningState.previousLines ∧
         (Mil4dy.generateClip appConfig runningState capFailOutcome).1.buffer.queue
            = runningState.buffer.queue ∧
         (Mil4dy.generateClip appConfig runningState capFailOutcome).1.errors
            = runningState.errors + 1 ∧
         (Mil4dy.generateClip appConfig runningState capFailOutcome).1.isGenerating
            = false)) ∧
     (capFailOutcome.captureOk = true → capFailOutcome.describeOk = true →
      capFailOutcome.composeOk = true → capFailOutcome.synthOk = false →
        ((Mil4dy.generateClip appConfig runningState capFailOutcome).1.buffer.queue
            = runningState.buffer.queue ∧
         (Mil4dy.generateClip appConfig runningState capFailOutcome).1.errors
            = runningState.errors + 1 ∧
         (Mil4dy.generateClip appConfig runningState capFailOutcome).1.isGenerating
            = false ∧
         (Mil4dy.generateClip appConfig runningState capFailOutcome).1.previousLines
            = PoetryModule.addToHistory maxPreviousLines
                runningState.previousLines capFailOutcome.poemText))) :=
  ⟨rfl, generateClip_abort_effects appConfig runningState capFailOutcome rfl⟩

/-! ### C4 — which events an enqueue emits -/

/-- C4 counterexample: a successful `addToQueue` whose resulting queue
length (1) is at or below `minBufferClips` (2) emits only the
buffer-status update — no low-buffer signal is part of the enqueue. -/
theorem enqueue_emits_no_bufferLow_counterexample :
    AudioBufferManager.addToQueue appConfig activatedEmptyBuffer clipA true
        = .ok ({ activatedEmptyBuffer with queue := [clipA] },
               [Ev.bufferUpdate 1 3]) ∧
    1 ≤ appConfig.minBufferClips ∧
    Ev.bufferLow ∉ [Ev.bufferUpdate 1 3] := by
  refine ⟨?_, by decide, by decide⟩
  simp [AudioBufferManager.addToQueue, activatedEmptyBuffer, appConfig,
        trimQueue, totalSeconds, clipA]

/-- C4 amended: a successful `addToQueue` emits exactly one event, the
buffer-status update (computed on the not-yet-trimmed queue), and never
a low-buffer signal; the low-buffer signal is instead emitted by the
`playNext` consumer loop, as the first event of an iteration entered
with queue length at most `minBufferClips`. -/
theorem enqueue_status_update_lowBuffer_in_consumer (cfg : Config)
    (b : BufferState) (c : Clip) (h : b.isInitialized = true) :
    (∃ b', AudioBufferManager.addToQueue cfg b c true = .ok (b',
         [Ev.bufferUpdate (b.queue ++ [c]).length
            (totalSeconds (b.queue ++ [c]))]) ∧
       Ev.bufferLow ∉ [Ev.bufferUpdate (b.queue ++ [c]).length
            (totalSeconds (b.queue ++ [c]))]) ∧
    (∀ (minClips : Nat) (ok : Bool) (rest : List (Clip × Bool)),
       rest.length + 1 ≤ minClips →
       playTrace minClips ((c, ok) :: rest)
         = Ev.bufferLow :: Ev.clipStart c ::
           Ev.bufferUpdate rest.length (totalSeconds (rest.map Prod.fst)) ::
           (if ok then Ev.clipEnd c :: playTrace minClips rest
            else Ev.errEvent :: playTrace minClips rest)) := by
  constructor
  · refine ⟨{ b with queue := trimQueue cfg.maxBufferClips (b.queue ++ [c]) },
      ?_, by simp⟩
    simp [AudioBufferManager.addToQueue, h]
  · intro minClips ok rest hle
    simp [playTrace, hle]

/-- Witness for C4 amended at a concrete input. -/
theorem enqueue_status_update_lowBuffer_in_consumer_witness :
    activatedEmptyBuffer.isInitialized = true ∧
    ((∃ b', AudioBufferManager.addToQueue appConfig activatedEmptyBuffer
          clipB true = .ok (b',
          [Ev.bufferUpdate (activatedEmptyBuffer.queue ++ [clipB]).length
             (totalSeconds (activatedEmptyBuffer.queue ++ [clipB]))]) ∧
        Ev.bufferLow ∉ [Ev.bufferUpdate
             (activatedEmptyBuffer.queue ++ [clipB]).length
             (totalSeconds (activatedEmptyBuffer.queue ++ [clipB]))]) ∧
     (∀ (minClips : Nat) (ok : Bool) (rest : List (Clip × Bool)),
        rest.length + 1 ≤ minClips →
        playTrace minClips ((clipB, ok) :: rest)
          = Ev.bufferLow :: Ev.clipStart clipB ::
            Ev.bufferUpdate rest.length (totalSeconds (rest.map Prod.fst)) ::
            (if ok then Ev.clipEnd clipB :: playTrace minClips rest
             else Ev.errEvent :: playTrace minClips rest))) :=
  ⟨rfl, enqueue_status_update_lowBuffer_in_consumer appConfig
          activatedEmptyBuffer clipB rfl⟩

/-! ### Lemmas about `generateClip` and `play` used by the scheduler claims -/

/-- Trimming a queue already within the bound is the identity. -/
theorem trimQueue_of_le (maxClips : Nat) (q : List Clip)
    (h : q.length ≤ maxClips) : trimQueue maxClips q = q := by
  rw [trimQueue_eq_drop]
  have h0 : q.length - maxClips = 0 := by omega
  rw [h0, List.drop_zero]

/-- The enqueue step grows the queue by at most one clip. -/
theorem enqueuePhase_queue_le (cfg : Config) (s : AppState) (c : Clip)
    (d : Bool) :
    (Mil4dy.enqueuePhase cfg s c d).buffer.queue.length
      ≤ s.buffer.queue.length + 1 := by
  by_cases h1 : s.buffer.isInitialized
  · by_cases h2 : d
    · simp only [Mil4dy.enqueuePhase, AudioBufferManager.addToQueue, h1, h2,
        Bool.not_true, Bool.false_eq_true, if_false]
      have := trimQueue_length_le_self cfg.maxBufferClips (s.buffer.queue ++ [c])
      simp only [List.length_append, List.length_cons, List.length_nil] at this
      omega
    · simp only [Bool.not_eq_true] at h2
      simp [Mil4dy.enqueuePhase, AudioBufferManager.addToQueue, h1, h2,
        Mil4dy.runFail]
  · simp only [Bool.not_eq_true] at h1
    simp [Mil4dy.enqueuePhase, AudioBufferManager.addToQueue, h1,
      Mil4dy.runFail]

/-- One `generateClip` invocation grows the queue by at most one clip. -/
theorem generateClip_queue_le (cfg : Config) (s : AppState) (o : RunOutcome) :
    (Mil4dy.generateClip cfg s o).1.buffer.queue.length
      ≤ s.buffer.queue.length + 1 := by
  unfold Mil4dy.generateClip
  split
  · exact Nat.le_succ _
  · split
    · exact Nat.le_succ _
    · split
      · exact Nat.le_succ _
      · split
        · exact Nat.le_succ _
        · split
          · exact Nat.le_succ _
          · exact enqueuePhase_queue_le cfg _ _ _

/-- The function `generateClip` never touches the session's `isRunning` flag. -/
theorem generateClip_isRunning (cfg : Config) (s : AppState) (o : RunOutcome) :
    (Mil4dy.generateClip cfg s o).1.isRunning = s.isRunning := by
  unfold Mil4dy.generateClip Mil4dy.enqueuePhase Mil4dy.runFail
  dsimp only
  repeat' split
  all_goals rfl

/-- After a `generateClip` invocation on a state not mid-run, the
single-flight guard is released again (`finally` clause). -/
theorem generateClip_isGenerating (cfg : Config) (s : AppState)
    (o : RunOutcome) (h : s.isGenerating = false) :
    (Mil4dy.generateClip cfg s o).1.isGenerating = false := by
  unfold Mil4dy.generateClip Mil4dy.enqueuePhase Mil4dy.runFail
  dsimp only
  repeat' split
  all_goals first | exact h | rfl

/-- Calling `play()` always leaves the manager in the playing state. -/
theorem play_isPlaying (b : BufferState) :
    (AudioBufferManager.play b).isPlaying = true := by
  unfold AudioBufferManager.play
  dsimp only
  split
  · rename_i h
    exact (Bool.and_eq_true _ _ |>.mp h).1
  · rfl

/-- Calling `play()` never touches the queue. -/
theorem play_queue (b : BufferState) :
    (AudioBufferManager.play b).queue = b.queue := by
  unfold AudioBufferManager.play AudioBufferManager.initBuffer
  dsimp only
  repeat' split
  all_goals rfl

/-! ### C7 — bounded priming, degraded start -/

/-- Calling `initialize()` never touches the queue. -/
theorem initBuffer_queue (b : BufferState) :
    (AudioBufferManager.initBuffer b).queue = b.queue := by
  unfold AudioBufferManager.initBuffer
  split <;> rfl

/-- Two consecutive `generateClip` invocations grow the queue by at most
two clips. -/
theorem twoGen_queue_le (cfg : Config) (t : AppState) (o1 o2 : RunOutcome) :
    (Mil4dy.generateClip cfg (Mil4dy.generateClip cfg t o1).1
        o2).1.buffer.queue.length ≤ t.buffer.queue.length + 2 := by
  have l1 := generateClip_queue_le cfg t o1
  have l2 := generateClip_queue_le cfg (Mil4dy.generateClip cfg t o1).1 o2
  omega

/-- Calling `start()` always ends with `isRunning` set. -/
theorem start_isRunning (cfg : Config) (s : AppState) (o1 o2 : RunOutcome) :
    (Mil4dy.start cfg s o1 o2).isRunning = true := by
  unfold Mil4dy.start
  dsimp only
  rw [generateClip_isRunning, generateClip_isRunning]

/-- Calling `start()` always ends with the buffer playing. -/
theorem start_isPlaying (cfg : Config) (s : AppState) (o1 o2 : RunOutcome) :
    (Mil4dy.start cfg s o1 o2).buffer.isPlaying = true := by
  unfold Mil4dy.start
  dsimp only
  exact play_isPlaying _

/-- The two priming attempts of `start()` add at most two clips to the queue. -/
theorem start_queue_le (cfg : Config) (s : AppState) (o1 o2 : RunOutcome) :
    (Mil4dy.start cfg s o1 o2).buffer.queue.length
      ≤ s.buffer.queue.length + 2 := by
  unfold Mil4dy.start
  dsimp only
  rw [play_queue]
  refine le_trans (twoGen_queue_le cfg _ o1 o2) ?_
  simp [initBuffer_queue]

/-- C7: `start()`'s priming phase invokes the pipeline trigger exactly
twice in sequence (successful enqueues stop at 2 because each attempt
enqueues at most one segment; otherwise the attempt budget is exhausted)
and then always proceeds to a running, playing session with whatever got
buffered — at most 2 segments. In particular, when the first trigger
fails with a synthesis error and the second succeeds, the session enters
Running with exactly 1 buffered segment and one counted error, instead of
blocking. -/
theorem start_priming_bounded_degraded (cfg : Config) (o1 o2 : RunOutcome)
    (hmax : 1 ≤ cfg.maxBufferClips)
    (h1a : o1.captureOk = true) (h1b : o1.describeOk = true)
    (h1c : o1.composeOk = true) (h1d : o1.synthOk = false)
    (h2a : o2.captureOk = true) (h2b : o2.describeOk = true)
    (h2c : o2.composeOk = true) (h2d : o2.synthOk = true)
    (h2e : o2.decodeOk = true) :
    (∀ p1 p2 : RunOutcome,
       (Mil4dy.start cfg AppState.initial p1 p2).isRunning = true ∧
       (Mil4dy.start cfg AppState.initial p1 p2).buffer.isPlaying = true ∧
       (Mil4dy.start cfg AppState.initial p1 p2).buffer.queue.length ≤ 2) ∧
    ((Mil4dy.start cfg AppState.initial o1 o2).buffer.queue
        = [⟨o2.poemText, o2.duration⟩] ∧
     (Mil4dy.start cfg AppState.initial o1 o2).errors = 1) := by
  constructor
  · intro p1 p2
    refine ⟨start_isRunning cfg _ p1 p2, start_isPlaying cfg _ p1 p2, ?_⟩
    simpa [AppState.initial, BufferState.fresh] using
      start_queue_le cfg AppState.initial p1 p2
  · constructor <;>
      simp [Mil4dy.start, Mil4dy.generateClip, Mil4dy.runFail,
        Mil4dy.enqueuePhase, AudioBufferManager.addToQueue,
        AudioBufferManager.initBuffer, AudioBufferManager.play,
        AppState.initial, BufferState.fresh, h1a, h1b, h1c, h1d,
        h2a, h2b, h2c, h2d, h2e, trimQueue_of_le, hmax]

/-- Witness for C7 at a concrete input. -/
theorem start_priming_bounded_degraded_witness :
    1 ≤ appConfig.maxBufferClips ∧
    synthFailOutcome.captureOk = true ∧ synthFailOutcome.synthOk = false ∧
    okOutcome.synthOk = true ∧
    ((∀ p1 p2 : RunOutcome,
        (Mil4dy.start appConfig AppState.initial p1 p2).isRunning = true ∧
        (Mil4dy.start appConfig AppState.initial p1 p2).buffer.isPlaying
            = true ∧
        (Mil4dy.start appConfig AppState.initial p1 p2).buffer.queue.length
            ≤ 2) ∧
     ((Mil4dy.start appConfig AppState.initial synthFailOutcome
          okOutcome).buffer.queue
         = [⟨okOutcome.poemText, okOutcome.duration⟩] ∧
      (Mil4dy.start appConfig AppState.initial synthFailOutcome
          okOutcome).errors = 1)) :=
  ⟨by decide, rfl, rfl, rfl,
   start_priming_bounded_degraded appConfig synthFailOutcome okOutcome
     (by decide) rfl rfl rfl rfl rfl rfl rfl rfl rfl⟩

/-! ### C8 — composer history across session starts -/

/-- The enqueue step never touches the poetry history. -/
theorem enqueuePhase_previousLines (cfg : Config) (s : AppState) (c : Clip)
    (d : Bool) :
    (Mil4dy.enqueuePhase cfg s c d).previousLines = s.previousLines := by
  unfold Mil4dy.enqueuePhase Mil4dy.runFail
  split <;> rfl

/-- How one `generateClip` invocation transforms `previousLines`: only a
run that reaches a successful composition appends to the history (and it
does so whether or not synthesis and enqueueing succeed afterwards). -/
theorem generateClip_previousLines (cfg : Config) (s : AppState)
    (o : RunOutcome) :
    (Mil4dy.generateClip cfg s o).1.previousLines =
      if s.isGenerating then s.previousLines
      else if o.captureOk && o.describeOk && o.composeOk then
        PoetryModule.addToHistory maxPreviousLines s.previousLines o.poemText
      else s.previousLines := by
  by_cases hg : s.isGenerating
  · simp [Mil4dy.generateClip, hg]
  · cases hc : o.captureOk <;> cases hd : o.describeOk <;>
      cases hcm : o.composeOk <;> cases hs : o.synthOk <;>
      simp [Mil4dy.generateClip, Mil4dy.runFail, hg, hc, hd, hcm, hs,
        enqueuePhase_previousLines]

/-- C8 counterexample: `start()` never calls `poetry.clearHistory()`.
Starting a new session on a state whose history still holds a line from
the previous session, with two priming runs that never reach composition,
leaves the history equal to `["old line"]` — not reset to empty before
the first generation run. And when the new session's first composition
does succeed, its context is built on top of the stale line. -/
theorem start_does_not_reset_history_counterexample :
    (Mil4dy.start appConfig histState capFailOutcome
        capFailOutcome).previousLines = ["old line"] ∧
    ["old line"] ≠ ([] : List String) ∧
    (Mil4dy.start appConfig histState capFailOutcome
        okOutcome).previousLines = ["old line", "good line"] := by
  decide

/-- C8 amended: the composer history is NOT reset at session start: it
persists across `start()` invocations. When the priming runs never reach
composition the history is exactly the previous session's; the first
successful composition of the new session extends the old history rather
than an emptied one. -/
theorem start_no_history_reset (cfg : Config) (s : AppState)
    (o1 o2 : RunOutcome) (hgen : s.isGenerating = false) :
    (o1.captureOk = false → o2.captureOk = false →
       (Mil4dy.start cfg s o1 o2).previousLines = s.previousLines) ∧
    (o1.captureOk = false → o2.captureOk = true → o2.describeOk = true →
     o2.composeOk = true →
       (Mil4dy.start cfg s o1 o2).previousLines
         = PoetryModule.addToHistory maxPreviousLines s.previousLines
             o2.poemText) := by
  have hg1 : ∀ p : RunOutcome, (Mil4dy.generateClip cfg
      { s with isRunning := true,
               buffer := AudioBufferManager.initBuffer s.buffer }
      p).1.isGenerating = false := by
    intro p
    exact generateClip_isGenerating cfg _ p hgen
  constructor
  · intro hc1 hc2
    unfold Mil4dy.start
    dsimp only
    rw [generateClip_previousLines, hg1, generateClip_previousLines]
    simp [hgen, hc1, hc2]
  · intro hc1 hc2a hc2b hc2c
    unfold Mil4dy.start
    dsimp only
    rw [generateClip_previousLines, hg1, generateClip_previousLines]
    simp [hgen, hc1, hc2a, hc2b, hc2c]

/-- Witness for C8 amended at a concrete input. -/
theorem start_no_history_reset_witness :
    histState.isGenerating = false ∧
    ((capFailOutcome.captureOk = false → capFailOutcome.captureOk = false →
        (Mil4dy.start appConfig histState capFailOutcome
            capFailOutcome).previousLines = histState.previousLines) ∧
     (capFailOutcome.captureOk = false → capFailOutcome.captureOk = true →
      capFailOutcome.describeOk = true → capFailOutcome.composeOk = true →
        (Mil4dy.start appConfig histState capFailOutcome
            capFailOutcome).previousLines
          = PoetryModule.addToHistory maxPreviousLines
              histState.previousLines capFailOutcome.poemText)) :=
  ⟨rfl, start_no_history_reset appConfig histState capFailOutcome
    capFailOutcome rfl⟩

/-! ### C9 — clip-end / clip-start ordering in the consumer loop -/

/-- A consumer-loop iteration always emits the `clipStart` of the clip it
dequeued. -/
theorem clipStart_mem_playTrace (minClips : Nat) (c : Clip) (ok : Bool)
    (rest : List (Clip × Bool)) :
    Ev.clipStart c ∈ playTrace minClips ((c, ok) :: rest) := by
  simp [playTrace]

/-- Events of the trace of the tail of the queue embed (as a sublist)
into the trace of the whole queue. -/
theorem sublist_playTrace_tail (minClips : Nat) (p : Clip × Bool)
    (rest : List (Clip × Bool)) (l : List Ev)
    (h : List.Sublist l (playTrace minClips rest)) :
    List.Sublist l (playTrace minClips (p :: rest)) := by
  obtain ⟨c, ok⟩ := p
  refine h.trans ?_
  cases ok
  · simp only [playTrace, Bool.false_eq_true, if_false]
    refine List.Sublist.trans ?_ (List.sublist_append_right _ _)
    exact List.Sublist.cons _ (List.Sublist.cons _
      (List.Sublist.cons _ (List.Sublist.refl _)))
  · simp only [playTrace, if_true]
    refine List.Sublist.trans ?_ (List.sublist_append_right _ _)
    exact List.Sublist.cons _ (List.Sublist.cons _
      (List.Sublist.cons _ (List.Sublist.refl _)))

/-- C9 counterexample: when `source.start(0)` throws for segment N, the
consumer emits `onError` and immediately starts segment N+1 — no
`onClipEnd` for segment N is ever emitted (the `onended` handler never
fires for a source that failed to start). With `clipA` failing to start
and `clipB` next, the trace contains `clipStart clipB` but no
`clipEnd clipA`, so `clipEnd` for N does not precede `clipStart` for
N+1. -/
theorem failed_start_skips_clipEnd_counterexample :
    Ev.clipStart clipB
        ∈ playTrace appConfig.minBufferClips [(clipA, false), (clipB, true)] ∧
    Ev.clipEnd clipA
        ∉ playTrace appConfig.minBufferClips [(clipA, false), (clipB, true)] ∧
    ¬ List.Sublist [Ev.clipEnd clipA, Ev.clipStart clipB]
        (playTrace appConfig.minBufferClips [(clipA, false), (clipB, true)]) := by
  decide

/-- C9 amended: restricted to runs of the consumer loop in which every
dequeued segment's rendering starts successfully (and completes
naturally), `onClipEnd` for segment N is emitted strictly before
`onClipStart` for segment N+1: the two events occur in this order as a
sublist of the emitted trace. -/
theorem clipEnd_before_next_clipStart (minClips : Nat) (cs : List Clip)
    (n : Nat) (c c' : Clip) (h1 : cs[n]? = some c)
    (h2 : cs[n + 1]? = some c') :
    List.Sublist [Ev.clipEnd c, Ev.clipStart c']
      (playTrace minClips (cs.map (fun x => (x, true)))) := by
  induction cs generalizing n with
  | nil => simp at h1
  | cons x rest ih =>
    cases n with
    | zero =>
      simp only [List.getElem?_cons_zero, Option.some.injEq] at h1
      subst h1
      cases rest with
      | nil => simp at h2
      | cons y rest' =>
        simp only [List.getElem?_cons_succ, List.getElem?_cons_zero,
          Option.some.injEq] at h2
        subst h2
        simp only [List.map_cons, playTrace]
        refine List.Sublist.trans ?_ (List.sublist_append_right _ _)
        refine List.Sublist.cons _ (List.Sublist.cons _ ?_)
        refine List.Sublist.cons₂ _ ?_
        exact List.singleton_sublist.mpr
          (clipStart_mem_playTrace minClips _ true (rest'.map (fun x => (x, true))))
    | succ k =>
      simp only [List.getElem?_cons_succ] at h1 h2
      exact sublist_playTrace_tail minClips _ _ _ (ih k h1 h2)

/-- Witness for C9 amended at a concrete input. -/
theorem clipEnd_before_next_clipStart_witness :
    ([clipA, clipB][0]? = some clipA) ∧
    ([clipA, clipB][1]? = some clipB) ∧
    List.Sublist [Ev.clipEnd clipA, Ev.clipStart clipB]
      (playTrace appConfig.minBufferClips
        ([clipA, clipB].map (fun x => (x, true)))) :=
  ⟨rfl, rfl, clipEnd_before_next_clipStart appConfig.minBufferClips
    [clipA, clipB] 0 clipA clipB rfl rfl⟩
